import Mathlib

/-!
Verification of the treadmill TUI telemetry pipeline (`src/tui/app.py`).

The development shallowly embeds the pieces of the program the claims talk
about:

* the display derivation of `TreadMillApp.watch_queue` (lines 90–102):
  Python's numeric f-string formatting and `str(timedelta(...))` are embedded
  as string-producing functions over `ℕ`/`ℚ` (Python float arithmetic is
  modelled by exact rational arithmetic; every value a claim evaluates is far
  from a rounding boundary, so the rational model agrees with the float run);
* the command dispatcher (the four `Button.Pressed` handlers, lines 74–88);
* the bounded telemetry queue `asyncio.Queue(maxsize=5)` (line 121) as a
  labelled transition system over lists;
* the exclusive consumer worker started by `on_mount` (line 106) and the
  teardown of the subscribe task in `run` (lines 129–135).

`USER_HEIGHT` and `TreadmillController` live in files that are not part of
the embedded source tree; where a claim depends on them they are modelled
from the specification and marked as such.
-/

namespace TreadmillTUI

/-- The little-endian base-10 digit list of `n`, computed with explicit fuel
so the kernel can evaluate it. `digitsAux fuel n` agrees with
`Nat.digits 10 n` whenever `n ≤ fuel`. -/
def digitsAux : ℕ → ℕ → List ℕ
  | 0, _ => []
  | fuel + 1, n => if n = 0 then [] else n % 10 :: digitsAux fuel (n / 10)

/-- The little-endian base-10 digits of `n` (empty for `0`). -/
def decDigits (n : ℕ) : List ℕ :=
  digitsAux n n

/-- The decimal digit characters, used to render numbers the way Python's
`str`/format specifiers do. -/
def digitChar (d : ℕ) : Char :=
  Char.ofNat (48 + d)

/-- Base-10 rendering of a natural number with no padding and no leading
zeros, exactly as Python's `str(n)` / `"{:d}".format(n)` renders a
non-negative integer. -/
def decimalString (n : ℕ) : String :=
  if n = 0 then "0"
  else String.mk ((decDigits n).reverse.map digitChar)

/-- Python's `str` on a signed integer: a minus sign followed by the digits
for negative values, plain digits otherwise. -/
def intString (z : ℤ) : String :=
  if z < 0 then "-" ++ decimalString z.natAbs else decimalString z.toNat

/-- Zero-pad a string on the left to a minimum width, as Python's `0w`
format modifier does for non-negative numbers: the width is a minimum, never
a truncation. -/
def padZero (w : ℕ) (s : String) : String :=
  String.mk (List.replicate (w - s.length) '0') ++ s

/-- Python's `int(...)` conversion on a rational value: truncation toward
zero. -/
def pyInt (q : ℚ) : ℤ :=
  if 0 ≤ q then ⌊q⌋ else ⌈q⌉

/-- `f"{x:04d}"` for a non-negative integer `x`: zero-pad the decimal
rendering to a minimum width of 4 (app.py lines 96–97, used for both the
distance and the calories field). -/
def pad4 (n : ℕ) : String :=
  padZero 4 (decimalString n)

/-- Render a non-negative number of cents as `intpart.fracpart` with exactly
two fractional digits, zero-padded to a minimum total width of 5. -/
def fixed2Text (cents : ℕ) : String :=
  padZero 5 (decimalString (cents / 100) ++ "." ++ padZero 2 (decimalString (cents % 100)))

/-- `f"{x:05.2f}"` for a non-negative value `x` (app.py line 95): round to
two fractional digits and render zero-padded to a minimum width of 5.
Python rounds the underlying binary float to even; the rational model uses
`round`, which only differs at exact half-way cents, and no claim evaluates
one. -/
def speedText (q : ℚ) : String :=
  fixed2Text (round (q * 100)).toNat

/-- The `h:mm:ss` core of Python's `str(datetime.timedelta)`: unpadded hours,
two-digit minutes and seconds, for a duration of `s` seconds with
`s < 86400`. -/
def durationHMS (s : ℕ) : String :=
  decimalString (s / 3600) ++ ":" ++ padZero 2 (decimalString (s % 3600 / 60))
    ++ ":" ++ padZero 2 (decimalString (s % 60))

/-- `str(datetime.timedelta(seconds=s))` for a non-negative whole number of
seconds (app.py line 98): below one day it is `h:mm:ss`; from one day on it
is `d day, h:mm:ss` or `d days, h:mm:ss` with the day count split off rather
than rolled into the hours. -/
def durationText (s : ℕ) : String :=
  if s < 86400 then durationHMS s
  else
    decimalString (s / 86400)
      ++ (if s / 86400 = 1 then " day, " else " days, ")
      ++ durationHMS (s % 86400)

/-- One decoded telemetry snapshot, as the dict the producer puts on the
queue: `speed`, `distance`, `calories`, `time` (elapsed seconds). Distance,
calories and time are non-negative integers per the data model; speed is a
decimal value. -/
structure TelemetrySnapshot where
  speed : ℚ
  distance : ℕ
  calories : ℕ
  time : ℕ
  deriving DecidableEq, Repr

/-- The derived display record `watch_queue` publishes: the five formatted
string fields of the `data` dict (app.py lines 94–100). -/
structure DerivedDisplay where
  speed : String
  distance : String
  calories : String
  duration : String
  steps : String
  deriving DecidableEq, Repr

/-- The divisor of the steps computation, `int(USER_HEIGHT) / 100 * 0.415`
(app.py line 99), for a configured height `h` in centimeters. -/
def strideFactor (h : ℚ) : ℚ :=
  (pyInt h : ℚ) / 100 * (415 / 1000)

/-- `int(int(distance) / (int(USER_HEIGHT) / 100 * 0.415))` (app.py line
99). Python raises `ZeroDivisionError` exactly when the divisor is zero;
the embedding returns `none` there. `int(...)` on the non-negative quotient
truncates toward zero. -/
def stepsOf (distance : ℕ) (h : ℚ) : Option ℤ :=
  if strideFactor h = 0 then none
  else some (pyInt ((distance : ℚ) / strideFactor h))

/-- The body of `watch_queue` for one received snapshot: build the `data`
dict of five formatted fields (app.py lines 94–100). `h` is the configured
`USER_HEIGHT`, modelled as a parameter because `src/treadmill/secret.py` is
configuration outside the embedded tree. The whole derivation raises (is
`none`) exactly when the steps division raises. -/
def deriveDisplay (h : ℚ) (s : TelemetrySnapshot) : Option DerivedDisplay :=
  (stepsOf s.distance h).map fun st =>
    { speed := speedText s.speed
      distance := pad4 s.distance
      calories := pad4 s.calories
      duration := durationText s.time
      steps := intString st }

/-- The four UI intents of the app: the `#start`, `#stop`, `#inc_speed` and
`#dec_speed` buttons (app.py lines 60–65). -/
inductive ControlIntent where
  | start
  | stop
  | increaseSpeed
  | decreaseSpeed
  deriving DecidableEq, Repr

/-- A single call on the `TreadmillController` interface, as issued by a
button handler. -/
inductive ControllerCall where
  | callStart
  | callStop
  | setSpeed (v : ℤ)
  deriving DecidableEq, Repr

/-- The command dispatcher: the four `Button.Pressed` handlers (app.py lines
74–88). Each handler's whole body is one awaited controller call; the
handlers read no telemetry and hold no state, so the dispatch is a pure
function of the intent alone. `increase_speed_treadmill` calls
`set_speed(2)` and `decrease_speed_treadmill` calls `set_speed(1)`. -/
def dispatch : ControlIntent → ControllerCall
  | .start => .callStart
  | .stop => .callStop
  | .increaseSpeed => .setSpeed 2
  | .decreaseSpeed => .setSpeed 1

/-- `asyncio.Queue(maxsize=5)` (app.py line 121): the capacity of the
telemetry hand-off queue. -/
def queueCapacity : ℕ := 5

/-- The observable state of the bounded telemetry channel together with its
history: `buffer` is the queue's current content (front first), `produced`
the sequence of snapshots the producer's `put` calls have completed, and
`consumed` the sequence the consumer's `get` calls have returned. -/
structure ChanState (α : Type) where
  buffer : List α
  produced : List α
  consumed : List α
  deriving DecidableEq, Repr

/-- The transition relation of `asyncio.Queue(maxsize=5)` under its
single-producer/single-consumer use: a `put` appends to the back and can
complete only when the buffer holds fewer than `queueCapacity` items (a
`put` against a full buffer suspends the producer, so no transition exists
for it); a `get` removes the front item and delivers it to the consumer. -/
inductive ChanStep (α : Type) : ChanState α → ChanState α → Prop
  | put (a : α) (s : ChanState α) (h : s.buffer.length < queueCapacity) :
      ChanStep α s ⟨s.buffer ++ [a], s.produced ++ [a], s.consumed⟩
  | get (a : α) (rest : List α) (s : ChanState α) (h : s.buffer = a :: rest) :
      ChanStep α s ⟨rest, s.produced, s.consumed ++ [a]⟩

/-- The channel as created at startup: empty, nothing produced or
consumed. -/
def chanInit (α : Type) : ChanState α :=
  ⟨[], [], []⟩

/-- The states the channel can reach from startup. -/
def ChanReachable (α : Type) (s : ChanState α) : Prop :=
  Relation.ReflTransGen (ChanStep α) (chanInit α) s

/-- The state of the UI runtime's worker manager for the consumer-loop
worker group: which worker instances are active and which have been
cancelled. Worker instances are identified by numbers. -/
structure WorkerRuntime where
  active : List ℕ
  cancelled : List ℕ
  deriving DecidableEq, Repr

/-- The UI framework's `run_worker`: start worker `w`; with
`exclusive = true` every previously active instance of the group is
cancelled before `w` starts, so `w` becomes the sole active instance; with
`exclusive = false` the new instance runs alongside the previous ones. -/
def runWorker (s : WorkerRuntime) (w : ℕ) (exclusive : Bool) : WorkerRuntime :=
  if exclusive then { active := [w], cancelled := s.cancelled ++ s.active }
  else { active := s.active ++ [w], cancelled := s.cancelled }

/-- `TreadMillApp.on_mount` (app.py line 106): start the `watch_queue`
consumer loop with `exclusive=True`. -/
def onMount (s : WorkerRuntime) (w : ℕ) : WorkerRuntime :=
  runWorker s w true

/-- The lifecycle states of an asyncio task: running; cancellation requested
but not yet acted on; completed normally; finished as cancelled. -/
inductive TaskState where
  | running
  | cancelRequested
  | doneOk
  | doneCancelled
  deriving DecidableEq, Repr

/-- `task.cancel()` (app.py line 134): request cancellation of a running
task; a task that has already finished is unaffected. -/
def cancelTask : TaskState → TaskState
  | .running => .cancelRequested
  | s => s

/-- Modelled from the spec: how `TreadmillController.subscribe`
(`src/treadmill/controller.py`, not part of the embedded tree) settles a
pending cancellation request. Per §4.2 it "must be cancellable; upon
cancellation it returns promptly", and per §5/§7 every producer-side
operation treats cancellation "as a normal, silent exit": the task completes
normally rather than finishing as cancelled. -/
def settleSubscribe : TaskState → TaskState
  | .cancelRequested => .doneOk
  | s => s

/-- `await task` on a settled task: a normally completed task returns its
result; a task that finished as cancelled re-raises `CancelledError` into
the awaiter. -/
def awaitTask : TaskState → Except String Unit
  | .doneOk => .ok ()
  | .doneCancelled => .error "CancelledError"
  | _ => .error "pending"

/-- The teardown tail of `run()` (app.py lines 134–135) applied to the
subscribe task in state `t`: `task.cancel()`, let the task settle its
cancellation, then `await task`; `run()` returns — and shutdown continues —
only with the value `await task` produced. -/
def teardown (t : TaskState) : Except String Unit :=
  awaitTask (settleSubscribe (cancelTask t))

/-! ### Helper lemmas -/

theorem digitsAux_eq_digits (fuel : ℕ) : ∀ n : ℕ, n ≤ fuel → digitsAux fuel n = Nat.digits 10 n := by
  induction fuel with
  | zero =>
    intro n hn
    obtain rfl : n = 0 := Nat.le_zero.mp hn
    simp [digitsAux]
  | succ f ih =>
    intro n hn
    rw [digitsAux]
    by_cases h0 : n = 0
    · simp [h0]
    · rw [if_neg h0, ih (n / 10) ?_, Nat.digits_def' (by norm_num) (Nat.pos_of_ne_zero h0)]
      have : n / 10 < n := Nat.div_lt_self (Nat.pos_of_ne_zero h0) (by norm_num)
      omega

theorem decDigits_eq_digits (n : ℕ) : decDigits n = Nat.digits 10 n :=
  digitsAux_eq_digits n n le_rfl

theorem decimalString_length (n : ℕ) :
    (decimalString n).length = max 1 (Nat.digits 10 n).length := by
  by_cases h0 : n = 0
  · simp [decimalString, h0]
    decide
  · have hne : Nat.digits 10 n ≠ [] := Nat.digits_ne_nil_iff_ne_zero.mpr h0
    have hpos : 0 < (Nat.digits 10 n).length := List.length_pos.mpr hne
    simp [decimalString, h0, decDigits_eq_digits, String.length, Nat.max_eq_right hpos]

theorem decimalString_length_lt (k n : ℕ) (h : 10 ^ k ≤ n) :
    k < (decimalString n).length := by
  have h0 : n ≠ 0 := by
    have h1 : 0 < n := lt_of_lt_of_le (Nat.pos_pow_of_pos k (by norm_num)) h
    omega
  rw [decimalString_length]
  have hlog : k ≤ Nat.log 10 n := (Nat.pow_le_iff_le_log (by norm_num) h0).mp h
  rw [Nat.digits_len 10 n (by norm_num) h0]
  omega

theorem decimalString_length_le (k n : ℕ) (hk : 1 ≤ k) (h : n < 10 ^ k) :
    (decimalString n).length ≤ k := by
  rw [decimalString_length]
  by_cases h0 : n = 0
  · simp [h0, hk]
  · have hlog : Nat.log 10 n < k := (Nat.lt_pow_iff_log_lt (by norm_num) h0).mp h
    rw [Nat.digits_len 10 n (by norm_num) h0]
    omega

theorem padZero_length (w : ℕ) (s : String) : (padZero w s).length = max w s.length := by
  rw [padZero, String.length_append, String.length_mk, List.length_replicate]
  omega

theorem pad4_length (n : ℕ) : (pad4 n).length = max 4 (decimalString n).length := by
  simp [pad4, padZero_length]

theorem pyInt_of_nonneg {q : ℚ} (h : 0 ≤ q) : pyInt q = ⌊q⌋ := if_pos h

theorem pyInt_nonneg {q : ℚ} (h : 0 ≤ q) : 0 ≤ pyInt q := by
  rw [pyInt_of_nonneg h]
  exact Int.floor_nonneg.mpr h

theorem strideFactor_eq_zero_iff (h : ℚ) : strideFactor h = 0 ↔ pyInt h = 0 := by
  rw [strideFactor]
  constructor
  · intro hz
    rcases mul_eq_zero.mp hz with hz | hz
    · rcases div_eq_zero_iff.mp hz with hz | hz
      · exact_mod_cast hz
      · norm_num at hz
    · norm_num at hz
  · intro hz
    rw [hz]
    norm_num

theorem strideFactor_pos {h : ℚ} (h1 : 1 ≤ pyInt h) : 0 < strideFactor h := by
  rw [strideFactor]
  have : (1 : ℚ) ≤ (pyInt h : ℚ) := by exact_mod_cast h1
  nlinarith

theorem stepsOf_eq_floor (d : ℕ) {h : ℚ} (h1 : 1 ≤ pyInt h) :
    stepsOf d h = some ⌊(d : ℚ) / strideFactor h⌋ := by
  have hpos := strideFactor_pos h1
  rw [stepsOf, if_neg (ne_of_gt hpos)]
  congr 1
  exact pyInt_of_nonneg (div_nonneg (by positivity) hpos.le)

theorem stepsOf_isSome_iff (d : ℕ) {h : ℚ} (h0 : 0 ≤ h) :
    (stepsOf d h).isSome ↔ 1 ≤ pyInt h := by
  have hnn : 0 ≤ pyInt h := pyInt_nonneg h0
  rw [stepsOf]
  by_cases hz : strideFactor h = 0
  · rw [if_pos hz]
    have := (strideFactor_eq_zero_iff h).mp hz
    simp
    omega
  · rw [if_neg hz]
    have : pyInt h ≠ 0 := fun hh => hz ((strideFactor_eq_zero_iff h).mpr hh)
    simp
    omega

theorem fixed2Text_length (c : ℕ) :
    (fixed2Text c).length =
      max 5 ((decimalString (c / 100)).length + 1 + max 2 (decimalString (c % 100)).length) := by
  have hdot : ("." : String).length = 1 := rfl
  rw [fixed2Text, padZero_length, String.length_append, String.length_append, hdot,
    padZero_length]

theorem fixed2Text_length_lt {c : ℕ} (hc : 10000 ≤ c) : 5 < (fixed2Text c).length := by
  have hip : 10 ^ 2 ≤ c / 100 := by omega
  have h2 : 2 < (decimalString (c / 100)).length := decimalString_length_lt 2 _ hip
  rw [fixed2Text_length]
  omega

theorem fixed2Text_decomp (c : ℕ) :
    ∃ ip fp, fixed2Text c = ip ++ "." ++ fp ∧ fp.length = 2 ∧ 5 ≤ (fixed2Text c).length := by
  refine ⟨String.mk (List.replicate
        (5 - (decimalString (c / 100) ++ "." ++ padZero 2 (decimalString (c % 100))).length) '0')
      ++ decimalString (c / 100),
    padZero 2 (decimalString (c % 100)), ?_, ?_, ?_⟩
  · rw [fixed2Text, padZero]
    simp [String.append_assoc]
  · have hle : (decimalString (c % 100)).length ≤ 2 :=
      decimalString_length_le 2 _ (by norm_num) (by omega)
    rw [padZero_length]
    omega
  · rw [fixed2Text_length]
    omega

/-! ### Claims -/

/-- C2: the snapshot `{speed=5.2, distance=120, calories=45,
elapsedSeconds=3725}` with `userHeightCm = 175` derives the display
`speedText="05.20"`, `distanceText="0120"`, `caloriesText="0045"`,
`durationText="1:02:05"`, `stepsEstimate=165`. -/
theorem claim_C2 :
    deriveDisplay 175 ⟨52 / 10, 120, 45, 3725⟩ =
      some ⟨"05.20", "0120", "0045", "1:02:05", "165"⟩ := by
  have hsf : strideFactor 175 = 581 / 800 := by norm_num [strideFactor, pyInt]
  have hst : stepsOf 120 175 = some 165 := by
    rw [stepsOf, hsf]
    norm_num [pyInt]
  have hsp : round ((52 : ℚ) / 10 * 100) = 520 := by norm_num [round_eq]
  simp only [deriveDisplay, hst, Option.map_some', speedText]
  rw [hsp]
  decide

/-- C5 (amended): for every snapshot with non-negative integer distance and
every configuration whose height truncates to a positive integer
(`int(userHeightCm) ≥ 1`), the derived steps estimate equals
`floor(distance / (int(userHeightCm)/100 × 0.415))` — the code divides by
the *truncated* height, not the raw one. -/
theorem claim_C5 (d : ℕ) (h : ℚ) (h1 : 1 ≤ pyInt h) :
    stepsOf d h = some ⌊(d : ℚ) / ((pyInt h : ℚ) / 100 * (415 / 1000))⌋ :=
  stepsOf_eq_floor d h1

/-- C5 witness: the amended claim instantiated at distance 120 and height
175, where the estimate is 165. -/
theorem claim_C5_instance :
    1 ≤ pyInt 175 ∧
      stepsOf 120 175 = some ⌊(120 : ℚ) / ((pyInt 175 : ℚ) / 100 * (415 / 1000))⌋ :=
  ⟨by norm_num [pyInt], claim_C5 120 175 (by norm_num [pyInt])⟩

/-- C5 counterexample: the claim as stated quantifies over every
`userHeightCm` that makes `userHeightCm/100 × 0.415` positive, but at
`userHeightCm = 1/2` that divisor is positive while the code truncates the
height to `int(1/2) = 0` and raises `ZeroDivisionError` instead of
returning `floor(distance / (userHeightCm/100 × 0.415))`. -/
theorem claim_C5_refuted :
    0 < (1 / 2 : ℚ) / 100 * (415 / 1000) ∧
      stepsOf 120 (1 / 2) ≠ some ⌊(120 : ℚ) / ((1 / 2 : ℚ) / 100 * (415 / 1000))⌋ := by
  constructor
  · norm_num
  · have hz : strideFactor (1 / 2) = 0 := by norm_num [strideFactor, pyInt]
    rw [stepsOf, if_pos hz]
    exact fun hc => Option.noConfusion hc

/-- C8: with the configured height truncating to zero as an integer, the
steps computation of the consumer loop divides by zero and the whole
derivation raises on the first snapshot; for a non-negative configured
height the derivation is total exactly when `int(userHeightCm) ≥ 1`. -/
theorem claim_C8 (s : TelemetrySnapshot) (h : ℚ) (h0 : 0 ≤ h) :
    (pyInt h = 0 → deriveDisplay h s = none) ∧
      ((deriveDisplay h s).isSome ↔ 1 ≤ pyInt h) := by
  constructor
  · intro hz
    have : strideFactor h = 0 := (strideFactor_eq_zero_iff h).mpr hz
    simp [deriveDisplay, stepsOf, this]
  · rw [deriveDisplay, Option.isSome_map']
    exact stepsOf_isSome_iff s.distance h0

/-- C8 witness: at configured height `1/2` (truncating to 0) the derivation
of any snapshot — here `{speed=5.2, distance=120, calories=45, time=3725}` —
raises, and totality fails since `int(1/2) = 0 < 1`. -/
theorem claim_C8_instance :
    0 ≤ (1 / 2 : ℚ) ∧
      ((pyInt (1 / 2) = 0 → deriveDisplay (1 / 2) ⟨52 / 10, 120, 45, 3725⟩ = none) ∧
        ((deriveDisplay (1 / 2) ⟨52 / 10, 120, 45, 3725⟩).isSome ↔ 1 ≤ pyInt (1 / 2))) :=
  ⟨by norm_num, claim_C8 ⟨52 / 10, 120, 45, 3725⟩ (1 / 2) (by norm_num)⟩

/-- C9: the zero-padded widths are minimums, not fixed widths — snapshots
with distance ≥ 10000 render more than 4 distance characters, calories
≥ 10000 more than 4 calories characters, and speed ≥ 100 more than 5 speed
characters; no value is truncated to its display pattern. -/
theorem claim_C9 (hcm : ℚ) (s : TelemetrySnapshot) (dd : DerivedDisplay)
    (hd : deriveDisplay hcm s = some dd) :
    (10000 ≤ s.distance → 4 < dd.distance.length) ∧
      (10000 ≤ s.calories → 4 < dd.calories.length) ∧
      (100 ≤ s.speed → 5 < dd.speed.length) := by
  rw [deriveDisplay] at hd
  obtain ⟨st, hst, rfl⟩ := Option.map_eq_some'.mp hd
  refine ⟨fun h => ?_, fun h => ?_, fun h => ?_⟩
  · have := decimalString_length_lt 4 s.distance (by omega)
    rw [pad4_length]
    omega
  · have := decimalString_length_lt 4 s.calories (by omega)
    rw [pad4_length]
    omega
  · refine fixed2Text_length_lt ?_
    have hr : (10000 : ℤ) ≤ round (s.speed * 100) := by
      rw [round_eq]
      refine Int.le_floor.mpr ?_
      push_cast
      linarith
    omega

/-- C9 witness: the snapshot `{speed=100, distance=10000, calories=10000,
time=0}` at height 175 renders `"100.00"`, `"10000"`, `"10000"`, none of
which fit the minimum pattern widths. -/
theorem claim_C9_instance :
    deriveDisplay 175 ⟨100, 10000, 10000, 0⟩ =
        some ⟨"100.00", "10000", "10000", "0:00:00", "13769"⟩ ∧
      (10000 ≤ (10000 : ℕ) → 4 < ("10000" : String).length) ∧
      (10000 ≤ (10000 : ℕ) → 4 < ("10000" : String).length) ∧
      (100 ≤ (100 : ℚ) → 5 < ("100.00" : String).length) := by
  have hsf : strideFactor 175 = 581 / 800 := by norm_num [strideFactor, pyInt]
  have hst : stepsOf 10000 175 = some 13769 := by
    rw [stepsOf, hsf]
    norm_num [pyInt]
  have hsp : round ((100 : ℚ) * 100) = 10000 := by norm_num [round_eq]
  have hd : deriveDisplay 175 ⟨100, 10000, 10000, 0⟩ =
      some ⟨"100.00", "10000", "10000", "0:00:00", "13769"⟩ := by
    simp only [deriveDisplay, hst, Option.map_some', speedText]
    rw [hsp]
    decide
  exact ⟨hd, (claim_C9 175 _ _ hd).1, (claim_C9 175 _ _ hd).2.1, (claim_C9 175 _ _ hd).2.2⟩

/-- C10: durations of a day or more are rendered with an explicit day
component (`d day, h:mm:ss` / `d days, h:mm:ss`) whose displayed hour field
stays below 24, and the plain `h:mm:ss` form occurs exactly for elapsed
times below 86400 seconds. -/
theorem claim_C10 (s : ℕ) :
    (s < 86400 → durationText s = durationHMS s) ∧
      (86400 ≤ s →
        ∃ sep, (sep = " day, " ∨ sep = " days, ") ∧
          durationText s = decimalString (s / 86400) ++ sep ++ durationHMS (s % 86400) ∧
          1 ≤ s / 86400 ∧ s % 86400 / 3600 < 24) := by
  constructor
  · intro h
    rw [durationText, if_pos h]
  · intro h
    refine ⟨if s / 86400 = 1 then " day, " else " days, ", ?_, ?_, ?_, ?_⟩
    · split
      · exact Or.inl rfl
      · exact Or.inr rfl
    · rw [durationText, if_neg (by omega)]
    · omega
    · omega

/-- C10 witness: 90000 s (25 h) is at least a day and renders with the day
component split off; the instantiated conclusion of the claim at 90000. -/
theorem claim_C10_instance :
    86400 ≤ 90000 ∧
      ∃ sep, (sep = " day, " ∨ sep = " days, ") ∧
        durationText 90000 = decimalString (90000 / 86400) ++ sep ++ durationHMS (90000 % 86400) ∧
        1 ≤ 90000 / 86400 ∧ 90000 % 86400 / 3600 < 24 :=
  ⟨by norm_num, (claim_C10 90000).2 (by norm_num)⟩

/-- C4 (amended): every published render event carries five fixed fields:
speed in the `"00.00"` pattern (two fractional digits, zero-padded to a
minimum width of 5), duration in the `h:mm:ss` style derived from the
elapsed seconds, distance zero-padded to 4 digits, calories zero-padded to
4 digits (not 3), and the steps estimate as an unpadded integer string. -/
theorem claim_C4 (hcm : ℚ) (s : TelemetrySnapshot) (dd : DerivedDisplay)
    (hd : deriveDisplay hcm s = some dd) :
    (∃ ip fp, dd.speed = ip ++ "." ++ fp ∧ fp.length = 2 ∧ 5 ≤ dd.speed.length) ∧
      dd.distance = pad4 s.distance ∧ 4 ≤ dd.distance.length ∧
      dd.calories = pad4 s.calories ∧ 4 ≤ dd.calories.length ∧
      dd.duration = durationText s.time ∧
      ∃ st, stepsOf s.distance hcm = some st ∧ dd.steps = intString st := by
  rw [deriveDisplay] at hd
  obtain ⟨st, hst, rfl⟩ := Option.map_eq_some'.mp hd
  refine ⟨fixed2Text_decomp _, rfl, ?_, rfl, ?_, rfl, st, hst, rfl⟩
  · rw [pad4_length]
    omega
  · rw [pad4_length]
    omega

/-- C4 witness: the amended claim instantiated at height 175 and the
snapshot `{speed=5.2, distance=120, calories=45, time=3725}`. -/
theorem claim_C4_instance :
    deriveDisplay 175 ⟨52 / 10, 120, 45, 3725⟩ =
        some ⟨"05.20", "0120", "0045", "1:02:05", "165"⟩ ∧
      ((∃ ip fp, ("05.20" : String) = ip ++ "." ++ fp ∧ fp.length = 2 ∧
          5 ≤ ("05.20" : String).length) ∧
        ("0120" : String) = pad4 120 ∧ 4 ≤ ("0120" : String).length ∧
        ("0045" : String) = pad4 45 ∧ 4 ≤ ("0045" : String).length ∧
        ("1:02:05" : String) = durationText 3725 ∧
        ∃ st, stepsOf 120 175 = some st ∧ ("165" : String) = intString st) := by
  have hsf : strideFactor 175 = 581 / 800 := by norm_num [strideFactor, pyInt]
  have hst : stepsOf 120 175 = some 165 := by
    rw [stepsOf, hsf]
    norm_num [pyInt]
  have hsp : round ((52 : ℚ) / 10 * 100) = 520 := by norm_num [round_eq]
  have hd : deriveDisplay 175 ⟨52 / 10, 120, 45, 3725⟩ =
      some ⟨"05.20", "0120", "0045", "1:02:05", "165"⟩ := by
    simp only [deriveDisplay, hst, Option.map_some', speedText]
    rw [hsp]
    decide
  exact ⟨hd, claim_C4 175 _ _ hd⟩

/-- C4 counterexample: the claim as stated promises a 3-digit zero-padded
calories field and a `"00.0"`-pattern speed field, but for the snapshot
`{speed=5.2, distance=120, calories=45, time=3725}` at height 175 the code
publishes calories `"0045"` (width 4, from `f"{...:04d}"`) and speed
`"05.20"` (two fractional digits, from `f"{...:05.2f}"`), not `"045"` and
`"05.2"`. -/
theorem claim_C4_refuted :
    (deriveDisplay 175 ⟨52 / 10, 120, 45, 3725⟩).map DerivedDisplay.calories = some "0045" ∧
      ("0045" : String).length ≠ 3 ∧
      (deriveDisplay 175 ⟨52 / 10, 120, 45, 3725⟩).map DerivedDisplay.speed = some "05.20" ∧
      ("05.20" : String) ≠ "05.2" := by
  have hsf : strideFactor 175 = 581 / 800 := by norm_num [strideFactor, pyInt]
  have hst : stepsOf 120 175 = some 165 := by
    rw [stepsOf, hsf]
    norm_num [pyInt]
  have hsp : round ((52 : ℚ) / 10 * 100) = 520 := by norm_num [round_eq]
  refine ⟨?_, by decide, ?_, by decide⟩
  · simp only [deriveDisplay, hst, Option.map_some']
    decide
  · simp only [deriveDisplay, hst, Option.map_some', speedText]
    rw [hsp]
    decide

/-- C3 (amended): the dispatcher maps the four UI intents to single
controller calls with no intervening logic — Start to `start()`, Stop to
`stop()`, IncreaseSpeed to `setSpeed(2)`, and DecreaseSpeed to
`setSpeed(1)`: the decrease handler passes the positive argument 1, not a
negative step. -/
theorem claim_C3 :
    dispatch .start = .callStart ∧ dispatch .stop = .callStop ∧
      dispatch .increaseSpeed = .setSpeed 2 ∧ dispatch .decreaseSpeed = .setSpeed 1 :=
  ⟨rfl, rfl, rfl, rfl⟩

/-- C3 counterexample: the claim says DecreaseSpeed invokes `setSpeed(-1)`,
but the handler `decrease_speed_treadmill` (app.py line 88) invokes
`set_speed(1)`, and `setSpeed(1)` is not `setSpeed(-1)`. -/
theorem claim_C3_refuted :
    dispatch .decreaseSpeed = .setSpeed 1 ∧ ControllerCall.setSpeed 1 ≠ .setSpeed (-1) :=
  ⟨rfl, by decide⟩

/-- C1: in every reachable state of the capacity-5 telemetry channel, the
produced sequence is exactly the consumed sequence followed by the buffered
one — so the consumer receives snapshots in production order, once each,
with no loss, duplication or reordering — the buffer never exceeds 5
entries, and from a full buffer no step can complete a `put` (the producer
stays suspended, nothing is dropped or overwritten): the only enabled step
is a `get`, after which a slot is free again. -/
theorem claim_C1 {α : Type} (s : ChanState α) (hs : ChanReachable α s) :
    (s.produced = s.consumed ++ s.buffer ∧ s.buffer.length ≤ queueCapacity) ∧
      (s.buffer.length = queueCapacity →
        ∀ t, ChanStep α s t → t.produced = s.produced ∧ t.buffer.length < queueCapacity) := by
  constructor
  · induction hs with
    | refl => simp [chanInit]
    | tail hab hbc ih =>
      obtain ⟨hprod, hlen⟩ := ih
      cases hbc with
      | put a _ h =>
        refine ⟨?_, ?_⟩
        · simp only [hprod, List.append_assoc]
        · simp only [List.length_append, List.length_singleton]
          omega
      | get a rest _ h =>
        rw [h] at hlen
        simp only [List.length_cons] at hlen
        refine ⟨?_, ?_⟩
        · rw [hprod, h]
          simp
        · simp only [List.length_cons]
          omega
  · intro hfull t ht
    cases ht with
    | put a _ h => exact absurd hfull (by omega)
    | get a rest _ h =>
      rw [h] at hfull
      simp only [List.length_cons] at hfull
      refine ⟨rfl, ?_⟩
      show rest.length < queueCapacity
      omega

/-- C1 witness: the reachable state after puts of snapshots 1 and 2 and one
get — the consumer has received `[1]`, `[2]` is still buffered, and the
invariant instantiates there. -/
theorem claim_C1_instance :
    ChanReachable ℕ ⟨[2], [1, 2], [1]⟩ ∧
      ((([1, 2] : List ℕ) = [1] ++ [2] ∧ ([2] : List ℕ).length ≤ queueCapacity) ∧
        (([2] : List ℕ).length = queueCapacity →
          ∀ t, ChanStep ℕ ⟨[2], [1, 2], [1]⟩ t →
            t.produced = [1, 2] ∧ t.buffer.length < queueCapacity)) := by
  have s1 : ChanStep ℕ (chanInit ℕ) ⟨[1], [1], []⟩ := ChanStep.put 1 (chanInit ℕ) (by decide)
  have s2 : ChanStep ℕ ⟨[1], [1], []⟩ ⟨[1, 2], [1, 2], []⟩ :=
    ChanStep.put 2 ⟨[1], [1], []⟩ (by decide)
  have s3 : ChanStep ℕ ⟨[1, 2], [1, 2], []⟩ ⟨[2], [1, 2], [1]⟩ :=
    ChanStep.get 1 [2] ⟨[1, 2], [1, 2], []⟩ rfl
  have reach : ChanReachable ℕ ⟨[2], [1, 2], [1]⟩ :=
    Relation.ReflTransGen.tail (Relation.ReflTransGen.tail (Relation.ReflTransGen.single s1) s2) s3
  exact ⟨reach, claim_C1 _ reach⟩

/-- C6: mounting the app starts the consumer loop as an exclusive worker:
afterwards it is the sole active instance (at most one consumer task), and
every previously active instance has been cancelled rather than left to run
concurrently. -/
theorem claim_C6 (s : WorkerRuntime) (w : ℕ) :
    (onMount s w).active = [w] ∧ (onMount s w).active.length ≤ 1 ∧
      ∀ p ∈ s.active, p ∈ (onMount s w).cancelled := by
  refine ⟨rfl, by simp [onMount, runWorker], fun p hp => ?_⟩
  simp only [onMount, runWorker, if_pos]
  exact List.mem_append.mpr (Or.inr hp)

/-- C6 witness: starting consumer 3 while consumer 7 is active leaves
exactly `[3]` active and cancels 7. -/
theorem claim_C6_instance :
    (onMount ⟨[7], []⟩ 3).active = [3] ∧ (onMount ⟨[7], []⟩ 3).active.length ≤ 1 ∧
      7 ∈ (onMount ⟨[7], []⟩ 3).cancelled :=
  ⟨(claim_C6 ⟨[7], []⟩ 3).1, (claim_C6 ⟨[7], []⟩ 3).2.1,
    (claim_C6 ⟨[7], []⟩ 3).2.2 7 (by decide)⟩

/-- C7: tearing down a running subscribe task cancels it, awaits it to
completion — the task has settled (to a normal completion, per the
spec-modelled silent-exit cancellation of `subscribe`) before `run()`
returns — and the teardown yields a plain `ok`, raising no unhandled error;
by contrast, awaiting a task that finished as cancelled would re-raise
`CancelledError`. -/
theorem claim_C7 :
    teardown .running = Except.ok () ∧
      settleSubscribe (cancelTask .running) = .doneOk ∧
      awaitTask .doneCancelled = .error "CancelledError" :=
  ⟨rfl, rfl, rfl⟩

end TreadmillTUI
